import Mathlib

set_option autoImplicit false

namespace Httpsimp

/-! Shallow embedding of the httpsimplified v2 response-dispatch engine
(src/v2/statusspec.go, src/v2/parser.go, src/v2/parsers.go, src/v2/perform.go,
src/v2/errors.go and the package constants). Go machine integers are modelled
as Int or Nat, Go panics as an Option-none result, and Go error values as an
explicit inductive error type. The response body is a pure byte list, and the
side effects of body decoders on the body stream are made explicit through a
BodyAccess tag carried by every decode result. -/

/-- ContentTypeJSON is the application/json constant from the package. -/
def ContentTypeJSON : String := "application/json"

/-- ContentTypeTextPlain is the text/plain constant from the package. -/
def ContentTypeTextPlain : String := "text/plain"

/-- StatusSpec is an integer-valued status specification, as in statusspec.go. -/
abbrev StatusSpec := Int

/-- StatusNone matches no status code; zero value of StatusSpec. -/
def StatusNone : StatusSpec := 0

/-- StatusAny matches all status codes. -/
def StatusAny : StatusSpec := -1500

/-- Status1xx matches all 1xx status codes. -/
def Status1xx : StatusSpec := -100

/-- Status2xx matches all 2xx status codes. -/
def Status2xx : StatusSpec := -200

/-- Status3xx matches all 3xx status codes. -/
def Status3xx : StatusSpec := -300

/-- Status4xx matches all 4xx status codes. -/
def Status4xx : StatusSpec := -400

/-- Status5xx matches all 5xx status codes. -/
def Status5xx : StatusSpec := -500

/-- Status4xx5xx matches all 4xx and 5xx status codes. -/
def Status4xx5xx : StatusSpec := -900

/-- Matches embeds StatusSpec.Matches from statusspec.go. The Go method
panics when the actual status is outside the interval from 100 to 599, and,
in the default switch branch, when an exact desired spec is outside that
interval; a panic is modelled as a none result. -/
def Matches (desired : StatusSpec) (actual : Int) : Option Bool :=
  if actual < 100 ∨ actual > 599 then none
  else if desired = StatusNone then some false
  else if desired = StatusAny then some true
  else if desired = Status1xx then some (decide (100 ≤ actual ∧ actual ≤ 199))
  else if desired = Status2xx then some (decide (200 ≤ actual ∧ actual ≤ 299))
  else if desired = Status3xx then some (decide (300 ≤ actual ∧ actual ≤ 399))
  else if desired = Status4xx then some (decide (400 ≤ actual ∧ actual ≤ 499))
  else if desired = Status5xx then some (decide (500 ≤ actual ∧ actual ≤ 599))
  else if desired = Status4xx5xx then some (decide (400 ≤ actual ∧ actual ≤ 599))
  else if desired < 100 ∨ desired > 599 then none
  else some (decide (actual = desired))

/-- Response models the parts of http.Response that parser.go reads: the
status code, the Content-Type header value as returned by Header.Get (the
empty string when the header is absent), and the raw body bytes. -/
structure Response where
  statusCode : Int
  contentTypeHeader : String
  body : List Nat
deriving DecidableEq

/-- BodyAccess records what a step did to the single-use response body
stream: left it untouched, closed it without reading, or read and closed it. -/
inductive BodyAccess where
  | untouched
  | closedOnly
  | readClosed
deriving DecidableEq

/-- Json is the dynamic value produced by decoding a JSON body into a Go
interface value: object keys and strings are byte lists, numbers are
modelled as integers (the bodies in this development use only integers). -/
inductive Json where
  | null
  | bool (b : Bool)
  | num (n : Int)
  | str (bytes : List Nat)
  | arr (elems : List Json)
  | obj (fields : List (List Nat × Json))

/-- Value is a decoded body value as carried in responseError.Body: the Go
nil interface, a Go string (as its bytes), a byte slice, or a JSON value. -/
inductive Value where
  | nullV
  | strV (bytes : List Nat)
  | bytesV (bytes : List Nat)
  | jsonV (j : Json)

/-- DErr is a body-decoding error: the invalid-utf-8 error produced by
PlainText, or a JSON decoding failure produced by the JSON parser. -/
inductive DErr where
  | invalidUtf8
  | jsonDecodeFailed
deriving DecidableEq

/-- Err is the error taxonomy of the package: the Content-Type parse error
built with fmt.Errorf in parse, the responseError struct from errors.go, the
wrapperError struct from errors.go, and an opaque transport error produced
by the injected client. -/
inductive Err where
  | ctypeParseErr (raw : String)
  | responseError (statusCode : Int) (contentType : String) (wantedContentType : String)
      (contentTypeOK : Bool) (body : Option Value) (decodingError : Option DErr)
  | wrapperError (method : String) (path : String) (cause : Err)
  | transportErr (msg : String)

/-- DecodeOut is the outcome of running a body-decode function: the value it
returns as the Body for error reporting, the decode error, what it did to
the body stream, and the value it stored into the caller-supplied output
slot (none when nothing was stored). -/
structure DecodeOut where
  body : Value
  err : Option DErr
  access : BodyAccess
  slot : Option Value

/-- Parser embeds the Parser struct from parser.go: an expected content type
(empty means wildcard), a status spec, the error-forcing flag, and the
body-decode function. -/
structure Parser where
  ctype : String
  statusSpec : StatusSpec
  retErr : Bool
  parseBody : Response → DecodeOut

/-- ParseOption embeds the ParseOption values of parser.go as a tagged
variant: the ContentType option, the ReturnError option, and a StatusSpec
used directly as an option. -/
inductive ParseOption where
  | contentTypeOpt (ctype : String)
  | returnErrorOpt
  | statusSpecOpt (s : StatusSpec)

/-- applyToParser applies one option to a parser, mutating exactly the field
the option targets, as the applyToParser methods in parser.go do. -/
def applyToParser (o : ParseOption) (m : Parser) : Parser :=
  match o with
  | .contentTypeOpt c => { m with ctype := c }
  | .returnErrorOpt => { m with retErr := true }
  | .statusSpecOpt s => { m with statusSpec := s }

/-- MakeParser embeds MakeParser from parser.go: it seeds a parser with the
default content type, Status2xx and a false error flag, then applies the
options in order. -/
def MakeParser (defaultCtype : String) (mopt : List ParseOption)
    (bodyParser : Response → DecodeOut) : Parser :=
  mopt.foldl (fun p o => applyToParser o p) ⟨defaultCtype, Status2xx, false, bodyParser⟩

/-- ContentType embeds the ContentType option constructor from parser.go. -/
def ContentType (ctype : String) : ParseOption := .contentTypeOpt ctype

/-- ReturnError embeds the ReturnError option from parser.go (the Go
function returns the same option value on every call). -/
def ReturnError : ParseOption := .returnErrorOpt

/-- mediaTypeChar accepts the characters that can appear in the bare media
types this development works with. -/
def mediaTypeChar (c : Char) : Bool :=
  c.isAlphanum || c == '/' || c == '-' || c == '+' || c == '.' || c == '_'

/-- beforeSemi keeps the characters before the first semicolon. -/
def beforeSemi : List Char → List Char
  | [] => []
  | c :: rest => if c = ';' then [] else c :: beforeSemi rest

/-- dropSpaces removes leading space characters. -/
def dropSpaces : List Char → List Char
  | [] => []
  | c :: rest => if c = ' ' then dropSpaces rest else c :: rest

/-- trimSpaces removes leading and trailing space characters. -/
def trimSpaces (cs : List Char) : List Char :=
  (dropSpaces (dropSpaces cs.reverse).reverse)

/-- parseMediaType models mime.ParseMediaType from the Go standard library
as used by parse: it returns the media type before any parameters such as
charset, trimmed and lowercased, and fails on an empty or malformed header
(mime.ParseMediaType returns a no-media-type error for an empty string). -/
def parseMediaType (v : String) : Option String :=
  let base := (trimSpaces (beforeSemi v.data)).map Char.toLower
  if base.isEmpty then none
  else if base.all mediaTypeChar then some (String.mk base) else none

/-- utf8Cont accepts a UTF-8 continuation byte. -/
def utf8Cont (c : Nat) : Bool := decide (0x80 ≤ c ∧ c ≤ 0xBF)

/-- utf8Valid models utf8.Valid from the Go standard library on raw body
bytes, including the exclusion of overlong encodings and surrogates. -/
def utf8Valid : List Nat → Bool
  | [] => true
  | b :: rest =>
    if b < 0x80 then utf8Valid rest
    else if b < 0xC2 then false
    else if b ≤ 0xDF then
      match rest with
      | c1 :: r => utf8Cont c1 && utf8Valid r
      | [] => false
    else if b ≤ 0xEF then
      match rest with
      | c1 :: c2 :: r =>
        (if b == 0xE0 then decide (0xA0 ≤ c1 ∧ c1 ≤ 0xBF)
         else if b == 0xED then decide (0x80 ≤ c1 ∧ c1 ≤ 0x9F)
         else utf8Cont c1) && utf8Cont c2 && utf8Valid r
      | _ => false
    else if b ≤ 0xF4 then
      match rest with
      | c1 :: c2 :: c3 :: r =>
        (if b == 0xF0 then decide (0x90 ≤ c1 ∧ c1 ≤ 0xBF)
         else if b == 0xF4 then decide (0x80 ≤ c1 ∧ c1 ≤ 0x8F)
         else utf8Cont c1) && utf8Cont c2 && utf8Cont c3 && utf8Valid r
      | _ => false
    else false

/-- jsonWS accepts the whitespace bytes of JSON. -/
def jsonWS (c : Nat) : Bool := c == 0x20 || c == 0x09 || c == 0x0A || c == 0x0D

/-- skipWS drops leading JSON whitespace bytes. -/
def skipWS : List Nat → List Nat
  | [] => []
  | c :: rest => if jsonWS c then skipWS rest else c :: rest

/-- isDigit accepts an ASCII decimal digit byte. -/
def isDigit (c : Nat) : Bool := decide (0x30 ≤ c ∧ c ≤ 0x39)

/-- takeDigits splits the longest digit run off the front of the input. -/
def takeDigits : List Nat → List Nat × List Nat
  | [] => ([], [])
  | c :: rest =>
    if isDigit c then
      let p := takeDigits rest
      (c :: p.1, p.2)
    else ([], c :: rest)

/-- digitsToNat reads a digit run as a decimal number. -/
def digitsToNat (ds : List Nat) : Nat := ds.foldl (fun a c => a * 10 + (c - 0x30)) 0

/-- parseStringBody reads a JSON string body up to the closing quote; the
model rejects escape sequences, which none of the bodies here use. -/
def parseStringBody : List Nat → Option (List Nat × List Nat)
  | [] => none
  | c :: rest =>
    if c == 0x22 then some ([], rest)
    else if c == 0x5C then none
    else
      match parseStringBody rest with
      | some (s, r) => some (c :: s, r)
      | none => none

mutual

/-- parseJsonVal is a fueled recursive-descent JSON value reader that models
what encoding/json decodes into a Go interface value for the body shapes in
this development: objects, arrays, strings without escapes, integer numbers
and the three literals. -/
def parseJsonVal : Nat → List Nat → Option (Json × List Nat)
  | 0, _ => none
  | Nat.succ fuel, s =>
    match skipWS s with
    | [] => none
    | c :: rest =>
      if c == 0x22 then
        match parseStringBody rest with
        | some (b, r) => some (.str b, r)
        | none => none
      else if c == 0x7B then
        match skipWS rest with
        | 0x7D :: r => some (.obj [], r)
        | s1 =>
          match parseJsonObjFields fuel s1 with
          | some (fs, r) => some (.obj fs, r)
          | none => none
      else if c == 0x5B then
        match skipWS rest with
        | 0x5D :: r => some (.arr [], r)
        | s1 =>
          match parseJsonArrElems fuel s1 with
          | some (es, r) => some (.arr es, r)
          | none => none
      else if c == 0x74 then
        match rest with
        | 0x72 :: 0x75 :: 0x65 :: r => some (.bool true, r)
        | _ => none
      else if c == 0x66 then
        match rest with
        | 0x61 :: 0x6C :: 0x73 :: 0x65 :: r => some (.bool false, r)
        | _ => none
      else if c == 0x6E then
        match rest with
        | 0x75 :: 0x6C :: 0x6C :: r => some (.null, r)
        | _ => none
      else if c == 0x2D then
        match takeDigits rest with
        | ([], _) => none
        | (ds, r) => some (.num (-(digitsToNat ds : Int)), r)
      else if isDigit c then
        match takeDigits (c :: rest) with
        | (ds, r) => some (.num (digitsToNat ds), r)
      else none

/-- parseJsonObjFields reads one or more key-value members positioned right
after an opening brace or a comma, up to the closing brace. -/
def parseJsonObjFields : Nat → List Nat → Option (List (List Nat × Json) × List Nat)
  | 0, _ => none
  | Nat.succ fuel, s =>
    match skipWS s with
    | 0x22 :: rest =>
      match parseStringBody rest with
      | some (key, r1) =>
        match skipWS r1 with
        | 0x3A :: r2 =>
          match parseJsonVal fuel r2 with
          | some (v, r3) =>
            match skipWS r3 with
            | 0x2C :: r4 =>
              match parseJsonObjFields fuel r4 with
              | some (fs, r) => some ((key, v) :: fs, r)
              | none => none
            | 0x7D :: r4 => some ([(key, v)], r4)
            | _ => none
          | none => none
        | _ => none
      | none => none
    | _ => none

/-- parseJsonArrElems reads one or more array elements positioned right
after an opening bracket or a comma, up to the closing bracket. -/
def parseJsonArrElems : Nat → List Nat → Option (List Json × List Nat)
  | 0, _ => none
  | Nat.succ fuel, s =>
    match parseJsonVal fuel s with
    | some (v, r1) =>
      match skipWS r1 with
      | 0x2C :: r2 =>
        match parseJsonArrElems fuel r2 with
        | some (es, r) => some (v :: es, r)
        | none => none
      | 0x5D :: r2 => some ([v], r2)
      | _ => none
    | none => none

end

/-- jsonUnmarshal models decoding one JSON value from the body bytes the way
json.Decoder.Decode does: trailing bytes after the first value are ignored,
and an empty or malformed body is a decode error (none). -/
def jsonUnmarshal (bs : List Nat) : Option Json :=
  match parseJsonVal (2 * bs.length + 2) bs with
  | some (v, _) => some v
  | none => none

/-- strBytes gives the bytes of an ASCII string literal; used only to build
concrete request and response bodies. -/
def strBytes (s : String) : List Nat := s.data.map Char.toNat

/-- jsonNilBody embeds the body-decode closure built by JSON in parsers.go
for a nil result argument: it decodes the body into a fresh interface slot,
reads the decoded value back for error reporting, and closes the body. On a
decode failure the slot still holds the Go nil interface. -/
def jsonNilBody (resp : Response) : DecodeOut :=
  match jsonUnmarshal resp.body with
  | some v => { body := .jsonV v, err := none, access := .readClosed, slot := some (.jsonV v) }
  | none => { body := .nullV, err := some .jsonDecodeFailed, access := .readClosed, slot := none }

/-- plainTextBody embeds the body-decode closure built by PlainText in
parsers.go: it reads the whole body, fails with the invalid-utf-8 error when
the bytes are not valid UTF-8 (returning the raw bytes as the body), and
otherwise stores the body string into the result slot and returns it. -/
def plainTextBody (resp : Response) : DecodeOut :=
  if utf8Valid resp.body then
    { body := .strV resp.body, err := none, access := .readClosed, slot := some (.strV resp.body) }
  else
    { body := .bytesV resp.body, err := some .invalidUtf8, access := .readClosed, slot := none }

/-- noneBody embeds the body-discard closure built by None in parsers.go: it
closes the body without reading it and reports nothing. -/
def noneBody (_ : Response) : DecodeOut :=
  { body := .nullV, err := none, access := .closedOnly, slot := none }

/-- JSON embeds the JSON parser factory from parsers.go, specialised to the
nil result argument that the fallback chain passes. -/
def JSON (mopt : List ParseOption) : Parser :=
  MakeParser ContentTypeJSON mopt jsonNilBody

/-- PlainText embeds the PlainText parser factory from parsers.go; the
output slot is part of the decode outcome, so one definition covers both the
nil and the caller-supplied result argument. -/
def PlainText (mopt : List ParseOption) : Parser :=
  MakeParser "" mopt plainTextBody

/-- None embeds the None parser factory from parsers.go. -/
def None (mopt : List ParseOption) : Parser :=
  MakeParser "" mopt noneBody

/-- ParseResult is what the lowercase parse function in parser.go returns:
the matched flag and the error, plus the explicit record of what happened to
the body stream during the call. -/
structure ParseResult where
  matched : Bool
  err : Option Err
  access : BodyAccess

/-- parse embeds the lowercase parse function of parser.go. A Content-Type
header that fails to parse yields a no-match with the fmt.Errorf error and
the body untouched; otherwise the content-type and status checks run (the
status check can panic, modelled as none), and only when both pass does the
body-decode function run. The Go locals ctypeOK, body and bodyErr are
inlined as their defining expressions. -/
def parse (resp : Response) (p : Parser) : Option ParseResult :=
  match parseMediaType resp.contentTypeHeader with
  | none => some ⟨false, some (.ctypeParseErr resp.contentTypeHeader), .untouched⟩
  | some ctype =>
    match Matches p.statusSpec resp.statusCode with
    | none => none
    | some statusOK =>
      if !(p.ctype == "" || ctype == p.ctype) || !statusOK then
        some ⟨false, some (.responseError resp.statusCode ctype p.ctype
          (p.ctype == "" || ctype == p.ctype) none none), .untouched⟩
      else if p.retErr || (p.parseBody resp).err.isSome then
        some ⟨true, some (.responseError resp.statusCode ctype p.ctype true
          (some (p.parseBody resp).body) (p.parseBody resp).err), (p.parseBody resp).access⟩
      else
        some ⟨true, none, (p.parseBody resp).access⟩

/-- fallbackParsers embeds the fallbackParsers list of parser.go. -/
def fallbackParsers : List Parser :=
  [JSON [ParseOption.statusSpecOpt Status4xx5xx, ReturnError],
   PlainText [ParseOption.statusSpecOpt Status4xx5xx, ContentType ContentTypeTextPlain, ReturnError],
   None [ParseOption.statusSpecOpt StatusAny, ReturnError]]

/-- CallerLoopOut is the outcome of the first loop of Parse: either an early
return with the matched parser's error, or falling through with the
remembered first error; both carry the body accesses of the consulted
parsers in order. -/
inductive CallerLoopOut where
  | terminal (err : Option Err) (log : List BodyAccess)
  | fellThrough (firstErr : Option Err) (log : List BodyAccess)

/-- runCallers embeds the first loop of Parse in parser.go: try each caller
parser in order, return the first match's error, and remember the first
non-match error (the Go assignment sets firstErr to err only when firstErr
is still nil, which is Option.or); a panic inside parse propagates as
none. -/
def runCallers (resp : Response) : List Parser → Option Err → Option CallerLoopOut
  | [], firstErr => some (.fellThrough firstErr [])
  | p :: rest, firstErr =>
    match parse resp p with
    | none => none
    | some r =>
      if r.matched then some (.terminal r.err [r.access])
      else
        match runCallers resp rest (Option.or firstErr r.err) with
        | none => none
        | some (.terminal e log) => some (.terminal e (r.access :: log))
        | some (.fellThrough fe log) => some (.fellThrough fe (r.access :: log))

/-- runFallbacks embeds the second loop of Parse in parser.go: try the
fallback parsers in order, and when the entry at the last index matches with
a non-nil error, replace that error with the remembered first error (which
the Go code does without checking that the first error exists); falling off
the end returns nil. -/
def runFallbacks (resp : Response) (firstErr : Option Err) :
    Nat → List Parser → Option (Option Err × List BodyAccess)
  | _, [] => some (none, [])
  | i, p :: rest =>
    match parse resp p with
    | none => none
    | some r =>
      if r.matched then
        some (if i == fallbackParsers.length - 1 && r.err.isSome then firstErr else r.err,
          [r.access])
      else
        match runFallbacks resp firstErr (i + 1) rest with
        | none => none
        | some (e, log) => some (e, r.access :: log)

/-- Parse embeds the exported Parse function of parser.go: run the caller
parsers, then the fallback chain; alongside the Go return value it carries
the explicit list of body accesses of all consulted parsers in order. -/
def Parse (resp : Response) (parsers : List Parser) : Option (Option Err × List BodyAccess) :=
  match runCallers resp parsers none with
  | none => none
  | some (.terminal e log) => some (e, log)
  | some (.fellThrough firstErr log) =>
    match runFallbacks resp firstErr 0 fallbackParsers with
    | none => none
    | some (e, log2) => some (e, log ++ log2)

/-- Request models the parts of http.Request that Perform reads for error
context: the method and the URL path. -/
structure Request where
  method : String
  urlPath : String
deriving DecidableEq

/-- HTTPClient models the HTTPClient interface of perform.go: a Do function
from a request to a response or a transport error. -/
abbrev HTTPClient := Request → Except Err Response

/-- Perform embeds Perform from perform.go (the same body as Do in the v2
package): execute the request through the client, wrap a transport error
with method and path, then run Parse and wrap its error the same way; the
outer none models a panic inside Parse. -/
def Perform (r : Request) (client : HTTPClient) (parsers : List Parser) : Option (Option Err) :=
  match client r with
  | .error e => some (some (.wrapperError r.method r.urlPath e))
  | .ok resp =>
    match Parse resp parsers with
    | none => none
    | some (some e, _) => some (some (.wrapperError r.method r.urlPath e))
    | some (none, _) => some none

/-! Helper lemmas shared by the claim theorems. -/

theorem Matches_statusNone (a : Int) (h1 : 100 ≤ a) (h2 : a ≤ 599) :
    Matches StatusNone a = some false := by
  unfold Matches
  rw [if_neg (by omega), if_pos rfl]

theorem Matches_statusAny (a : Int) (h1 : 100 ≤ a) (h2 : a ≤ 599) :
    Matches StatusAny a = some true := by
  unfold Matches StatusAny StatusNone
  rw [if_neg (by omega), if_neg (by norm_num), if_pos rfl]

theorem Matches_status1xx (a : Int) (h1 : 100 ≤ a) (h2 : a ≤ 599) :
    Matches Status1xx a = some (decide (100 ≤ a ∧ a ≤ 199)) := by
  unfold Matches StatusAny StatusNone Status1xx
  rw [if_neg (by omega), if_neg (by norm_num), if_neg (by norm_num), if_pos rfl]

theorem Matches_status2xx (a : Int) (h1 : 100 ≤ a) (h2 : a ≤ 599) :
    Matches Status2xx a = some (decide (200 ≤ a ∧ a ≤ 299)) := by
  unfold Matches StatusAny StatusNone Status1xx Status2xx
  rw [if_neg (by omega), if_neg (by norm_num), if_neg (by norm_num), if_neg (by norm_num),
    if_pos rfl]

theorem Matches_status3xx (a : Int) (h1 : 100 ≤ a) (h2 : a ≤ 599) :
    Matches Status3xx a = some (decide (300 ≤ a ∧ a ≤ 399)) := by
  unfold Matches StatusAny StatusNone Status1xx Status2xx Status3xx
  rw [if_neg (by omega), if_neg (by norm_num), if_neg (by norm_num), if_neg (by norm_num),
    if_neg (by norm_num), if_pos rfl]

theorem Matches_status4xx (a : Int) (h1 : 100 ≤ a) (h2 : a ≤ 599) :
    Matches Status4xx a = some (decide (400 ≤ a ∧ a ≤ 499)) := by
  unfold Matches StatusAny StatusNone Status1xx Status2xx Status3xx Status4xx
  rw [if_neg (by omega), if_neg (by norm_num), if_neg (by norm_num), if_neg (by norm_num),
    if_neg (by norm_num), if_neg (by norm_num), if_pos rfl]

theorem Matches_status5xx (a : Int) (h1 : 100 ≤ a) (h2 : a ≤ 599) :
    Matches Status5xx a = some (decide (500 ≤ a ∧ a ≤ 599)) := by
  unfold Matches StatusAny StatusNone Status1xx Status2xx Status3xx Status4xx Status5xx
  rw [if_neg (by omega), if_neg (by norm_num), if_neg (by norm_num), if_neg (by norm_num),
    if_neg (by norm_num), if_neg (by norm_num), if_neg (by norm_num), if_pos rfl]

theorem Matches_status4xx5xx (a : Int) (h1 : 100 ≤ a) (h2 : a ≤ 599) :
    Matches Status4xx5xx a = some (decide (400 ≤ a ∧ a ≤ 599)) := by
  unfold Matches StatusAny StatusNone Status1xx Status2xx Status3xx Status4xx Status5xx
    Status4xx5xx
  rw [if_neg (by omega), if_neg (by norm_num), if_neg (by norm_num), if_neg (by norm_num),
    if_neg (by norm_num), if_neg (by norm_num), if_neg (by norm_num), if_neg (by norm_num),
    if_pos rfl]

theorem Matches_exact (d a : Int) (h1 : 100 ≤ a) (h2 : a ≤ 599) (h3 : 100 ≤ d) (h4 : d ≤ 599) :
    Matches d a = some (decide (a = d)) := by
  have g0 : ¬(a < 100 ∨ a > 599) := by omega
  have g1 : ¬(d = StatusNone) := by unfold StatusNone; omega
  have g2 : ¬(d = StatusAny) := by unfold StatusAny; omega
  have g3 : ¬(d = Status1xx) := by unfold Status1xx; omega
  have g4 : ¬(d = Status2xx) := by unfold Status2xx; omega
  have g5 : ¬(d = Status3xx) := by unfold Status3xx; omega
  have g6 : ¬(d = Status4xx) := by unfold Status4xx; omega
  have g7 : ¬(d = Status5xx) := by unfold Status5xx; omega
  have g8 : ¬(d = Status4xx5xx) := by unfold Status4xx5xx; omega
  have g9 : ¬(d < 100 ∨ d > 599) := by omega
  unfold Matches
  rw [if_neg g0, if_neg g1, if_neg g2, if_neg g3, if_neg g4, if_neg g5, if_neg g6, if_neg g7,
    if_neg g8, if_neg g9]

theorem Matches_out_of_range (d a : Int) (h : a < 100 ∨ 599 < a) : Matches d a = none := by
  unfold Matches
  rw [if_pos (by omega)]

theorem Matches_invalid_exact (d a : Int) (h1 : 100 ≤ a) (h2 : a ≤ 599)
    (hd : d ∉ [StatusNone, StatusAny, Status1xx, Status2xx, Status3xx, Status4xx, Status5xx,
      Status4xx5xx])
    (hout : d < 100 ∨ 599 < d) : Matches d a = none := by
  simp only [List.mem_cons, List.mem_singleton, not_or] at hd
  obtain ⟨n0, n1, n2, n3, n4, n5, n6, n7, -⟩ := hd
  have g0 : ¬(a < 100 ∨ a > 599) := by omega
  have g9 : d < 100 ∨ d > 599 := by omega
  unfold Matches
  rw [if_neg g0, if_neg n0, if_neg n1, if_neg n2, if_neg n3, if_neg n4, if_neg n5, if_neg n6,
    if_neg n7, if_pos g9]

theorem parse_mt_none (resp : Response) (p : Parser)
    (h : parseMediaType resp.contentTypeHeader = none) :
    parse resp p = some ⟨false, some (.ctypeParseErr resp.contentTypeHeader), .untouched⟩ := by
  unfold parse
  rw [h]

theorem parse_some_mt (resp : Response) (p : Parser) (mt : String) (ok : Bool)
    (hmt : parseMediaType resp.contentTypeHeader = some mt)
    (hok : Matches p.statusSpec resp.statusCode = some ok) :
    parse resp p =
      if !(p.ctype == "" || mt == p.ctype) || !ok then
        some ⟨false, some (.responseError resp.statusCode mt p.ctype
          (p.ctype == "" || mt == p.ctype) none none), .untouched⟩
      else if p.retErr || (p.parseBody resp).err.isSome then
        some ⟨true, some (.responseError resp.statusCode mt p.ctype true
          (some (p.parseBody resp).body) (p.parseBody resp).err), (p.parseBody resp).access⟩
      else some ⟨true, none, (p.parseBody resp).access⟩ := by
  unfold parse
  rw [hmt, hok]

theorem parse_panic (resp : Response) (p : Parser) (mt : String)
    (hmt : parseMediaType resp.contentTypeHeader = some mt)
    (hok : Matches p.statusSpec resp.statusCode = none) : parse resp p = none := by
  unfold parse
  rw [hmt, hok]

theorem parse_not_matched_shape (resp : Response) (p : Parser) (r : ParseResult)
    (h : parse resp p = some r) (hm : r.matched = false) :
    r.access = .untouched ∧ r.err.isSome = true := by
  cases hmt : parseMediaType resp.contentTypeHeader with
  | none =>
    rw [parse_mt_none resp p hmt] at h
    injection h with h
    subst h
    exact ⟨rfl, rfl⟩
  | some mt =>
    cases hok : Matches p.statusSpec resp.statusCode with
    | none => rw [parse_panic resp p mt hmt hok] at h; cases h
    | some ok =>
      rw [parse_some_mt resp p mt ok hmt hok] at h
      split_ifs at h with h1 h2 <;> injection h with h <;> subst h
      · exact ⟨rfl, rfl⟩
      · cases hm
      · cases hm

theorem parse_matched_err_isSome (resp : Response) (p : Parser) (r : ParseResult)
    (h : parse resp p = some r) (hm : r.matched = true)
    (hforce : (p.retErr || (p.parseBody resp).err.isSome) = true) : r.err.isSome = true := by
  cases hmt : parseMediaType resp.contentTypeHeader with
  | none =>
    rw [parse_mt_none resp p hmt] at h
    injection h with h
    subst h
    cases hm
  | some mt =>
    cases hok : Matches p.statusSpec resp.statusCode with
    | none => rw [parse_panic resp p mt hmt hok] at h; cases h
    | some ok =>
      rw [parse_some_mt resp p mt ok hmt hok] at h
      split_ifs at h with h1 <;> injection h with h <;> subst h
      · cases hm
      · rfl

theorem foldl_applyToParser_parseBody (l : List ParseOption) (p : Parser) :
    (l.foldl (fun p o => applyToParser o p) p).parseBody = p.parseBody := by
  induction l generalizing p with
  | nil => rfl
  | cons o rest ih =>
    rw [List.foldl_cons, ih]
    cases o <;> rfl

theorem MakeParser_parseBody (c : String) (mopt : List ParseOption)
    (f : Response → DecodeOut) : (MakeParser c mopt f).parseBody = f :=
  foldl_applyToParser_parseBody mopt _

theorem runCallers_all_nomatch (resp : Response) (ps : List Parser) (fe : Option Err)
    (h : ∀ q ∈ ps, ∃ r, parse resp q = some r ∧ r.matched = false) :
    ∃ fe', runCallers resp ps fe = some (.fellThrough fe' (List.replicate ps.length .untouched)) ∧
      ((ps = [] ∧ fe' = fe) ∨ fe'.isSome = true) := by
  induction ps generalizing fe with
  | nil => exact ⟨fe, rfl, Or.inl ⟨rfl, rfl⟩⟩
  | cons p rest ih =>
    obtain ⟨r, hp, hm⟩ := h p (List.mem_cons_self p rest)
    obtain ⟨hacc, herr⟩ := parse_not_matched_shape resp p r hp hm
    have hrest : ∀ q ∈ rest, ∃ r, parse resp q = some r ∧ r.matched = false :=
      fun q hq => h q (List.mem_cons_of_mem p hq)
    obtain ⟨fe', hrun, hd⟩ := ih (Option.or fe r.err) hrest
    have hfe1some : (Option.or fe r.err).isSome = true := by
      cases fe with
      | none => simpa [Option.or] using herr
      | some e => rfl
    refine ⟨fe', ?_, Or.inr ?_⟩
    · simp only [runCallers, hp, hm, Bool.false_eq_true, if_false]
      rw [hrun, hacc]
      simp [List.replicate_succ]
    · rcases hd with ⟨_, rfl⟩ | hs
      · exact hfe1some
      · exact hs

theorem runCallers_prefix_match (resp : Response) (p : Parser) (r : ParseResult)
    (hp : parse resp p = some r) (hm : r.matched = true) (pre post : List Parser)
    (fe : Option Err)
    (hpre : ∀ q ∈ pre, ∃ r', parse resp q = some r' ∧ r'.matched = false) :
    runCallers resp (pre ++ p :: post) fe =
      some (.terminal r.err (List.replicate pre.length .untouched ++ [r.access])) := by
  induction pre generalizing fe with
  | nil =>
    simp only [List.nil_append, runCallers, hp, hm, if_true]
    simp
  | cons q rest ih =>
    obtain ⟨r', hq, hm'⟩ := hpre q (List.mem_cons_self q rest)
    obtain ⟨hacc, _⟩ := parse_not_matched_shape resp q r' hq hm'
    have hrest : ∀ x ∈ rest, ∃ r', parse resp x = some r' ∧ r'.matched = false :=
      fun x hx => hpre x (List.mem_cons_of_mem q hx)
    show runCallers resp (q :: (rest ++ p :: post)) fe = _
    simp only [runCallers, hq, hm', Bool.false_eq_true, if_false]
    rw [ih _ hrest, hacc]
    simp [List.replicate_succ]

theorem parse_catchall (resp : Response) (mt : String)
    (hmt : parseMediaType resp.contentTypeHeader = some mt)
    (h1 : 100 ≤ resp.statusCode) (h2 : resp.statusCode ≤ 599) :
    parse resp (None [ParseOption.statusSpecOpt StatusAny, ReturnError]) =
      some ⟨true, some (.responseError resp.statusCode mt "" true (some .nullV) none),
        .closedOnly⟩ := by
  have hok : Matches (None [ParseOption.statusSpecOpt StatusAny, ReturnError]).statusSpec
      resp.statusCode = some true := Matches_statusAny _ h1 h2
  rw [parse_some_mt resp _ mt true hmt hok]
  rfl

theorem runFallbacks_all_ctype_err (resp : Response) (fe : Option Err)
    (h : parseMediaType resp.contentTypeHeader = none) :
    runFallbacks resp fe 0 fallbackParsers =
      some (none, [.untouched, .untouched, .untouched]) := by
  have h0 := parse_mt_none resp (JSON [ParseOption.statusSpecOpt Status4xx5xx, ReturnError]) h
  have h1 := parse_mt_none resp (PlainText [ParseOption.statusSpecOpt Status4xx5xx,
    ContentType ContentTypeTextPlain, ReturnError]) h
  have h2 := parse_mt_none resp (None [ParseOption.statusSpecOpt StatusAny, ReturnError]) h
  simp only [fallbackParsers, runFallbacks, h0, h1, h2]
  rfl

theorem runFallbacks_result (resp : Response) (mt : String) (fe : Option Err)
    (hmt : parseMediaType resp.contentTypeHeader = some mt)
    (h1 : 100 ≤ resp.statusCode) (h2 : resp.statusCode ≤ 599)
    (hfe : fe.isSome = true) :
    ∃ e log, runFallbacks resp fe 0 fallbackParsers = some (some e, log) := by
  obtain ⟨e2, he2⟩ := Option.isSome_iff_exists.mp hfe
  have hok45 : Matches Status4xx5xx resp.statusCode
      = some (decide (400 ≤ resp.statusCode ∧ resp.statusCode ≤ 599)) :=
    Matches_status4xx5xx _ h1 h2
  have hp0 := parse_some_mt resp (JSON [ParseOption.statusSpecOpt Status4xx5xx, ReturnError])
    mt _ hmt hok45
  have hp1 := parse_some_mt resp (PlainText [ParseOption.statusSpecOpt Status4xx5xx,
    ContentType ContentTypeTextPlain, ReturnError]) mt _ hmt hok45
  have hp2 := parse_catchall resp mt hmt h1 h2
  obtain ⟨r0, hr0⟩ : ∃ r0, parse resp (JSON [ParseOption.statusSpecOpt Status4xx5xx, ReturnError])
      = some r0 := by
    rw [hp0]; split_ifs <;> exact ⟨_, rfl⟩
  obtain ⟨r1, hr1⟩ : ∃ r1, parse resp (PlainText [ParseOption.statusSpecOpt Status4xx5xx,
      ContentType ContentTypeTextPlain, ReturnError]) = some r1 := by
    rw [hp1]; split_ifs <;> exact ⟨_, rfl⟩
  have hforce0 : ((JSON [ParseOption.statusSpecOpt Status4xx5xx, ReturnError]).retErr
      || ((JSON [ParseOption.statusSpecOpt Status4xx5xx, ReturnError]).parseBody resp).err.isSome)
      = true := by
    rw [show (JSON [ParseOption.statusSpecOpt Status4xx5xx, ReturnError]).retErr = true from rfl]
    exact Bool.true_or _
  have hforce1 : ((PlainText [ParseOption.statusSpecOpt Status4xx5xx,
      ContentType ContentTypeTextPlain, ReturnError]).retErr
      || ((PlainText [ParseOption.statusSpecOpt Status4xx5xx, ContentType ContentTypeTextPlain,
        ReturnError]).parseBody resp).err.isSome) = true := by
    rw [show (PlainText [ParseOption.statusSpecOpt Status4xx5xx, ContentType ContentTypeTextPlain,
      ReturnError]).retErr = true from rfl]
    exact Bool.true_or _
  by_cases hm0 : r0.matched = true
  · obtain ⟨e0, he0⟩ := Option.isSome_iff_exists.mp
      (parse_matched_err_isSome resp _ r0 hr0 hm0 hforce0)
    refine ⟨e0, [r0.access], ?_⟩
    simp only [fallbackParsers, runFallbacks, hr0, hm0, if_true]
    simp [he0]
  · by_cases hm1 : r1.matched = true
    · obtain ⟨e1, he1⟩ := Option.isSome_iff_exists.mp
        (parse_matched_err_isSome resp _ r1 hr1 hm1 hforce1)
      refine ⟨e1, [r0.access, r1.access], ?_⟩
      simp only [fallbackParsers, runFallbacks, hr0, hr1, hm0, hm1, if_true, if_false]
      simp [he1]
    · refine ⟨e2, [r0.access, r1.access, .closedOnly], ?_⟩
      simp only [fallbackParsers, runFallbacks, hr0, hr1, hp2, hm0, hm1, if_false]
      simp [he2]

/-! Claim theorems. -/

/-- Claim C3: for every response whose Content-Type header parses to a bare
media type and every parser, parse reports matched exactly when the
expected content type is empty or equals the parsed media type and the
status spec matches the status code; in the matched case the outcome is a
non-nil structured error carrying the decoded value and the decode error
exactly when the error-forcing flag is set or the decoder errored, and
otherwise there is no error. -/
theorem C3_parse_characterization (resp : Response) (p : Parser) (mt : String) (ok : Bool)
    (hmt : parseMediaType resp.contentTypeHeader = some mt)
    (hok : Matches p.statusSpec resp.statusCode = some ok) :
    ∃ r, parse resp p = some r ∧
      (r.matched = true ↔ ((p.ctype == "" || mt == p.ctype) = true ∧ ok = true)) ∧
      (r.matched = true →
        ((r.err ≠ none ↔ (p.retErr || (p.parseBody resp).err.isSome) = true) ∧
          ((p.retErr || (p.parseBody resp).err.isSome) = true →
            r.err = some (.responseError resp.statusCode mt p.ctype true
              (some (p.parseBody resp).body) (p.parseBody resp).err)))) := by
  rw [parse_some_mt resp p mt ok hmt hok]
  by_cases hc : (!(p.ctype == "" || mt == p.ctype) || !ok) = true
  · rw [if_pos hc]
    refine ⟨_, rfl, ?_, ?_⟩
    · simp only [Bool.false_eq_true, false_iff]
      rintro ⟨ha, hb⟩
      rw [ha, hb] at hc
      simp at hc
    · exact fun h => absurd h (by simp)
  · rw [if_neg hc]
    simp only [Bool.or_eq_true, Bool.not_eq_true', not_or, Bool.not_eq_false] at hc
    by_cases hf : (p.retErr || (p.parseBody resp).err.isSome) = true
    · rw [if_pos hf]
      refine ⟨_, rfl, ?_, ?_⟩
      · simp [hc.2]
        simpa using hc.1
      · exact fun _ => ⟨by simp [hf], fun _ => rfl⟩
    · rw [if_neg hf]
      refine ⟨_, rfl, ?_, ?_⟩
      · simp [hc.2]
        simpa using hc.1
      · refine fun _ => ⟨by simp [hf], fun h => absurd h hf⟩

/-- Claim C3 witness: the characterization instantiated at a 200 response
with an application/json content type and a default JSON parser. -/
theorem C3_witness :
    ∃ r, parse ⟨200, "application/json", strBytes "\x7b\x7d"⟩ (JSON []) = some r ∧
      (r.matched = true ↔ (((JSON []).ctype == ""
        || "application/json" == (JSON []).ctype) = true ∧ true = true)) ∧
      (r.matched = true →
        ((r.err ≠ none ↔ ((JSON []).retErr
            || ((JSON []).parseBody ⟨200, "application/json", strBytes "\x7b\x7d"⟩).err.isSome)
            = true) ∧
          (((JSON []).retErr
            || ((JSON []).parseBody ⟨200, "application/json", strBytes "\x7b\x7d"⟩).err.isSome)
            = true →
            r.err = some (.responseError 200 "application/json" (JSON []).ctype true
              (some ((JSON []).parseBody ⟨200, "application/json", strBytes "\x7b\x7d"⟩).body)
              ((JSON []).parseBody ⟨200, "application/json", strBytes "\x7b\x7d"⟩).err)))) :=
  C3_parse_characterization ⟨200, "application/json", strBytes "\x7b\x7d"⟩ (JSON [])
    "application/json" true rfl rfl

/-- Claim C4: when every parser before p rejects the response and p
matches, Parse returns p's outcome as the terminal result, the parsers
before p leave the body untouched, and the parsers after p are never
consulted (the result and the access log do not depend on them). -/
theorem C4_first_match_terminal (resp : Response) (pre post : List Parser) (p : Parser)
    (r : ParseResult)
    (hpre : ∀ q ∈ pre, ∃ rq, parse resp q = some rq ∧ rq.matched = false)
    (hp : parse resp p = some r) (hm : r.matched = true) :
    Parse resp (pre ++ p :: post) =
      some (r.err, List.replicate pre.length .untouched ++ [r.access]) := by
  simp only [Parse, runCallers_prefix_match resp p r hp hm pre post none hpre]

/-- Claim C4 witness: a JSON parser rejects a 200 text/plain response, the
text parser matches and its success is terminal; the discard parser after
it is never consulted. -/
theorem C4_witness :
    Parse ⟨200, "text/plain", strBytes "foo"⟩ [JSON [], PlainText [], None []] =
      some ((⟨true, none, .readClosed⟩ : ParseResult).err,
        List.replicate 1 .untouched ++ [(⟨true, none, .readClosed⟩ : ParseResult).access]) :=
  C4_first_match_terminal ⟨200, "text/plain", strBytes "foo"⟩ [JSON []] [None []]
    (PlainText []) ⟨true, none, .readClosed⟩
    (by
      intro q hq
      rw [List.mem_singleton] at hq
      subst hq
      exact ⟨_, rfl, rfl⟩)
    rfl rfl

/-- Claim C5: for every actual status code from 100 to 599,
StatusSpec.Matches returns exactly the documented band membership
(StatusNone matches nothing, StatusAny everything, each class variant its
inclusive hundreds band, Status4xx5xx the range 400 to 599, and an exact
in-range spec matches exactly its own code); for every actual outside
100 to 599 Matches panics for every variant, and an exact desired spec
outside 100 to 599 panics too. -/
theorem C5_statusspec_matches :
    (∀ actual : Int, 100 ≤ actual → actual ≤ 599 →
      Matches StatusNone actual = some false ∧
      Matches StatusAny actual = some true ∧
      Matches Status1xx actual = some (decide (100 ≤ actual ∧ actual ≤ 199)) ∧
      Matches Status2xx actual = some (decide (200 ≤ actual ∧ actual ≤ 299)) ∧
      Matches Status3xx actual = some (decide (300 ≤ actual ∧ actual ≤ 399)) ∧
      Matches Status4xx actual = some (decide (400 ≤ actual ∧ actual ≤ 499)) ∧
      Matches Status5xx actual = some (decide (500 ≤ actual ∧ actual ≤ 599)) ∧
      Matches Status4xx5xx actual = some (decide (400 ≤ actual ∧ actual ≤ 599)) ∧
      (∀ desired : StatusSpec, 100 ≤ desired → desired ≤ 599 →
        Matches desired actual = some (decide (actual = desired)))) ∧
    (∀ (desired : StatusSpec) (actual : Int), (actual < 100 ∨ 599 < actual) →
      Matches desired actual = none) ∧
    (∀ (desired : StatusSpec) (actual : Int), 100 ≤ actual → actual ≤ 599 →
      desired ∉ [StatusNone, StatusAny, Status1xx, Status2xx, Status3xx, Status4xx,
        Status5xx, Status4xx5xx] →
      (desired < 100 ∨ 599 < desired) → Matches desired actual = none) := by
  refine ⟨fun a h1 h2 => ?_, fun d a h => ?_, fun d a h1 h2 hd hout => ?_⟩
  · exact ⟨Matches_statusNone a h1 h2, Matches_statusAny a h1 h2, Matches_status1xx a h1 h2,
      Matches_status2xx a h1 h2, Matches_status3xx a h1 h2, Matches_status4xx a h1 h2,
      Matches_status5xx a h1 h2, Matches_status4xx5xx a h1 h2,
      fun d h3 h4 => Matches_exact d a h1 h2 h3 h4⟩
  · exact Matches_out_of_range d a (by omega)
  · exact Matches_invalid_exact d a h1 h2 hd hout

/-- Claim C5 witness: the characterization instantiated at concrete
status codes, including an out-of-range actual status and an invalid
exact spec. -/
theorem C5_witness :
    Matches StatusNone 404 = some false ∧
    Matches Status4xx 404 = some (decide ((400:Int) ≤ 404 ∧ (404:Int) ≤ 499)) ∧
    Matches 404 404 = some (decide ((404:Int) = 404)) ∧
    Matches Status2xx 700 = none ∧
    Matches 50 200 = none := by
  have A := C5_statusspec_matches
  exact ⟨(A.1 404 (by norm_num) (by norm_num)).1,
    (A.1 404 (by norm_num) (by norm_num)).2.2.2.2.2.1,
    (A.1 404 (by norm_num) (by norm_num)).2.2.2.2.2.2.2.2 404 (by norm_num) (by norm_num),
    A.2.1 Status2xx 700 (by decide),
    A.2.2 50 200 (by norm_num) (by norm_num) (by decide) (by decide)⟩

/-- Claim C7: for a response with a parseable Content-Type, a parser whose
content-type or status predicate rejects it yields matched false together
with a structured outcome carrying the status code, the actual and
expected content types and the contentTypeOK flag, with no body value and
no decoding error, and the body stream is left untouched. -/
theorem C7_reject_untouched (resp : Response) (p : Parser) (mt : String) (ok : Bool)
    (hmt : parseMediaType resp.contentTypeHeader = some mt)
    (hok : Matches p.statusSpec resp.statusCode = some ok)
    (hrej : ((p.ctype == "" || mt == p.ctype) && ok) = false) :
    parse resp p = some ⟨false, some (.responseError resp.statusCode mt p.ctype
      (p.ctype == "" || mt == p.ctype) none none), .untouched⟩ := by
  have hcond : (!(p.ctype == "" || mt == p.ctype) || !ok) = true := by
    cases hA : (p.ctype == "" || mt == p.ctype) <;> cases hB : ok <;>
      rw [hA, hB] at hrej <;> simp_all
  rw [parse_some_mt resp p mt ok hmt hok, if_pos hcond]

/-- Claim C7 witness: a default JSON parser rejects a 200 text/plain
response and leaves the body untouched. -/
theorem C7_witness :
    parse ⟨200, "text/plain", strBytes "foo"⟩ (JSON []) =
      some ⟨false, some (.responseError 200 "text/plain" (JSON []).ctype
        ((JSON []).ctype == "" || "text/plain" == (JSON []).ctype) none none), .untouched⟩ :=
  C7_reject_untouched ⟨200, "text/plain", strBytes "foo"⟩ (JSON []) "text/plain" true
    rfl rfl rfl

/-- Claim C8: Perform wraps a transport error from the client with the
request method and URL path; when the client succeeds it wraps a non-nil
Parse error the same way, and returns nil when Parse returns nil. -/
theorem C8_perform_wrapping (r : Request) (client : HTTPClient) (parsers : List Parser) :
    (∀ e, client r = .error e →
      Perform r client parsers = some (some (.wrapperError r.method r.urlPath e))) ∧
    (∀ resp e log, client r = .ok resp → Parse resp parsers = some (some e, log) →
      Perform r client parsers = some (some (.wrapperError r.method r.urlPath e))) ∧
    (∀ resp log, client r = .ok resp → Parse resp parsers = some (none, log) →
      Perform r client parsers = some none) := by
  refine ⟨fun e he => ?_, fun resp e log hc hp => ?_, fun resp log hc hp => ?_⟩
  · simp only [Perform, he]
  · simp only [Perform, hc, hp]
  · simp only [Perform, hc, hp]

/-- Claim C8 witness: a client failing with a transport error makes
Perform return the wrapper error with the request method and path. -/
theorem C8_witness :
    Perform ⟨"GET", "/api"⟩ (fun _ => .error (.transportErr "refused")) [] =
      some (some (.wrapperError "GET" "/api" (.transportErr "refused"))) :=
  (C8_perform_wrapping ⟨"GET", "/api"⟩ (fun _ => .error (.transportErr "refused")) []).1
    (.transportErr "refused") rfl

/-- Claim C9: the PlainText body decoder reads the entire body; when the
bytes are not well-formed UTF-8 it reports the invalid-utf-8 decode error
(so any matching PlainText parser carries a non-nil structured error), and
otherwise it stores the body as a string into the caller's string slot and
reports no decode error. -/
theorem C9_plaintext_decoding (resp : Response) :
    (utf8Valid resp.body = false →
      plainTextBody resp =
        { body := .bytesV resp.body, err := some .invalidUtf8, access := .readClosed,
          slot := none } ∧
      ∀ (mopt : List ParseOption) (r : ParseResult),
        parse resp (PlainText mopt) = some r → r.matched = true → r.err ≠ none) ∧
    (utf8Valid resp.body = true →
      plainTextBody resp =
        { body := .strV resp.body, err := none, access := .readClosed,
          slot := some (.strV resp.body) }) := by
  constructor
  · intro h
    refine ⟨by simp [plainTextBody, h], ?_⟩
    intro mopt r hp hm
    have hpb : (PlainText mopt).parseBody = plainTextBody := MakeParser_parseBody _ _ _
    have hforce : ((PlainText mopt).retErr
        || ((PlainText mopt).parseBody resp).err.isSome) = true := by
      rw [hpb]
      simp [plainTextBody, h]
    have hs := parse_matched_err_isSome resp _ r hp hm hforce
    intro hnone
    rw [hnone] at hs
    cases hs
  · intro h
    simp [plainTextBody, h]

/-- Claim C9 witness: the decoder evaluated on an invalid UTF-8 body and on
a valid ASCII body. -/
theorem C9_witness :
    plainTextBody ⟨200, "text/plain", [0xFF]⟩ =
      { body := .bytesV [0xFF], err := some .invalidUtf8, access := .readClosed,
        slot := none } ∧
    plainTextBody ⟨200, "text/plain", strBytes "foo"⟩ =
      { body := .strV (strBytes "foo"), err := none, access := .readClosed,
        slot := some (.strV (strBytes "foo")) } :=
  ⟨((C9_plaintext_decoding ⟨200, "text/plain", [0xFF]⟩).1 rfl).1,
   (C9_plaintext_decoding ⟨200, "text/plain", strBytes "foo"⟩).2 rfl⟩

/-- Claim C10: when the Content-Type header is absent, empty or not
parseable as a media type, every parser (caller parsers with any expected
content type, and all three fallback parsers) reports matched false, so
Parse returns nil and the body stream is never read or closed. -/
theorem C10_unparseable_content_type (resp : Response) (parsers : List Parser)
    (h : parseMediaType resp.contentTypeHeader = none) :
    (∀ p : Parser, parse resp p =
      some ⟨false, some (.ctypeParseErr resp.contentTypeHeader), .untouched⟩) ∧
    Parse resp parsers = some (none, List.replicate (parsers.length + 3) .untouched) := by
  refine ⟨fun p => parse_mt_none resp p h, ?_⟩
  obtain ⟨fe', hrun, -⟩ := runCallers_all_nomatch resp parsers none
    (fun q _ => ⟨_, parse_mt_none resp q h, rfl⟩)
  simp only [Parse, hrun, runFallbacks_all_ctype_err resp fe' h]
  rw [List.replicate_add]
  rfl

/-- Claim C10 witness: an absent Content-Type header (empty string) with
one caller parser makes everything a non-match, Parse returns nil and no
body access happens. -/
theorem C10_witness :
    (∀ p : Parser, parse ⟨200, "", strBytes "foo"⟩ p =
      some ⟨false, some (.ctypeParseErr ""), .untouched⟩) ∧
    Parse ⟨200, "", strBytes "foo"⟩ [JSON []] =
      some (none, List.replicate (([JSON []] : List Parser).length + 3) .untouched) :=
  C10_unparseable_content_type ⟨200, "", strBytes "foo"⟩ [JSON []] rfl

/-- Claim C1 counterexample: for the concrete response with status 200 and
an absent Content-Type header (empty string, which mime parsing rejects)
and an empty caller-parser list, no caller parser matches (vacuously), yet
none of the three fallback parsers matches — in particular the final
discard catch-all does not match — and Parse returns nil rather than a
non-nil error. -/
theorem C1_counterexample :
    (∀ q ∈ ([] : List Parser), ∃ r, parse ⟨200, "", []⟩ q = some r ∧ r.matched = false) ∧
    (∀ p ∈ fallbackParsers, ∃ r, parse (⟨200, "", []⟩ : Response) p = some r ∧
      r.matched = false) ∧
    Parse ⟨200, "", []⟩ [] = some (none, [.untouched, .untouched, .untouched]) := by
  refine ⟨fun q hq => absurd hq (List.not_mem_nil q), ?_, rfl⟩
  intro p hp
  simp only [fallbackParsers, List.mem_cons, List.mem_singleton, List.not_mem_nil,
    or_false] at hp
  rcases hp with rfl | rfl | rfl <;> exact ⟨_, rfl, rfl⟩

/-- Claim C1 amended: for every response whose Content-Type header parses
and whose status code lies in 100 to 599, if the caller-parser list is
non-empty and none of its parsers matches, then the final discard
catch-all fallback matches (so one of the three fallbacks matches) and
Parse returns a non-nil error. -/
theorem C1_fallback_chain (resp : Response) (parsers : List Parser) (mt : String)
    (hmt : parseMediaType resp.contentTypeHeader = some mt)
    (h1 : 100 ≤ resp.statusCode) (h2 : resp.statusCode ≤ 599)
    (hne : parsers ≠ [])
    (hnm : ∀ q ∈ parsers, ∃ r, parse resp q = some r ∧ r.matched = false) :
    (∃ r, parse resp (fallbackParsers.getD 2 (None [])) = some r ∧ r.matched = true) ∧
    (∃ e log, Parse resp parsers = some (some e, log)) := by
  refine ⟨⟨_, parse_catchall resp mt hmt h1 h2, rfl⟩, ?_⟩
  obtain ⟨fe', hrun, hd⟩ := runCallers_all_nomatch resp parsers none hnm
  have hfe : fe'.isSome = true := by
    rcases hd with ⟨hnil, -⟩ | hs
    · exact absurd hnil hne
    · exact hs
  obtain ⟨e, log2, hrf⟩ := runFallbacks_result resp mt fe' hmt h1 h2 hfe
  exact ⟨e, List.replicate parsers.length .untouched ++ log2, by simp only [Parse, hrun, hrf]⟩

/-- Claim C1 amended witness: a 404 text/plain response against a single
default JSON caller parser: the catch-all matches and Parse returns a
non-nil error. -/
theorem C1_witness :
    (∃ r, parse ⟨404, "text/plain", strBytes "foo"⟩ (fallbackParsers.getD 2 (None []))
      = some r ∧ r.matched = true) ∧
    (∃ e log, Parse ⟨404, "text/plain", strBytes "foo"⟩ [JSON []] = some (some e, log)) :=
  C1_fallback_chain ⟨404, "text/plain", strBytes "foo"⟩ [JSON []] "text/plain" rfl
    (by norm_num) (by norm_num) (by simp)
    (by
      intro q hq
      rw [List.mem_singleton] at hq
      subst hq
      exact ⟨_, rfl, rfl⟩)

/-- Claim C2 evaluation: for a 200 response with an application/octet-stream
content type and no caller parsers, the final discard catch-all matches and
produces its own non-nil forced error, yet Parse replaces it with the
missing firstError and returns nil instead of returning the catch-all's
outcome verbatim as the claim and the documentation of Parse state. -/
theorem C2_catchall_error_erased :
    (∃ r, parse (⟨200, "application/octet-stream", []⟩ : Response)
        (fallbackParsers.getD 2 (None [])) = some r ∧ r.matched = true ∧ r.err ≠ none) ∧
    Parse ⟨200, "application/octet-stream", []⟩ [] =
      some (none, [.untouched, .untouched, .closedOnly]) := by
  refine ⟨⟨_, rfl, rfl, by simp⟩, rfl⟩

/-- Claim C6: for every 4xx or 5xx response with content type
application/json and no caller parsers, fallback (a) — the JSON parser
constrained to 4xx and 5xx with error forcing on — matches, decodes the
body, and Parse returns a forced error whose Body field carries the
decoded value; for the concrete body with field foo equal to 42 the
decoded value is that object. -/
theorem C6_fallback_json (resp : Response)
    (h4 : 400 ≤ resp.statusCode) (h5 : resp.statusCode ≤ 599)
    (hmt : parseMediaType resp.contentTypeHeader = some ContentTypeJSON) :
    (∃ r, parse resp (fallbackParsers.getD 0 (None [])) = some r ∧ r.matched = true) ∧
    Parse resp [] = some (some (.responseError resp.statusCode ContentTypeJSON ContentTypeJSON
      true (some (jsonNilBody resp).body) (jsonNilBody resp).err),
      [(jsonNilBody resp).access]) ∧
    (resp.body = strBytes "\x7b\"foo\":42\x7d" →
      (jsonNilBody resp).body = .jsonV (.obj [(strBytes "foo", .num 42)]) ∧
      (jsonNilBody resp).err = none) := by
  have h1 : (100:Int) ≤ resp.statusCode := by omega
  have hok : Matches (JSON [ParseOption.statusSpecOpt Status4xx5xx, ReturnError]).statusSpec
      resp.statusCode = some true := by
    have hm := Matches_status4xx5xx resp.statusCode h1 h5
    have : decide (400 ≤ resp.statusCode ∧ resp.statusCode ≤ 599) = true := by
      simp only [decide_eq_true_eq]
      omega
    rw [this] at hm
    exact hm
  have hp0 : parse resp (JSON [ParseOption.statusSpecOpt Status4xx5xx, ReturnError]) =
      some ⟨true, some (.responseError resp.statusCode ContentTypeJSON ContentTypeJSON
        true (some (jsonNilBody resp).body) (jsonNilBody resp).err),
        (jsonNilBody resp).access⟩ := by
    rw [parse_some_mt resp _ ContentTypeJSON true hmt hok, if_neg (by decide),
      if_pos (by rw [show (JSON [ParseOption.statusSpecOpt Status4xx5xx,
        ReturnError]).retErr = true from rfl]; exact Bool.true_or _)]
    rfl
  refine ⟨⟨_, hp0, rfl⟩, ?_, ?_⟩
  · simp only [Parse, runCallers, fallbackParsers, runFallbacks, hp0]
    simp
  · intro hb
    constructor
    · simp only [jsonNilBody, hb]
      rfl
    · simp only [jsonNilBody, hb]
      rfl

/-- Claim C6 witness: the concrete 400 application/json response with body
containing foo equal to 42. -/
theorem C6_witness :
    (∃ r, parse ⟨400, "application/json", strBytes "\x7b\"foo\":42\x7d"⟩
      (fallbackParsers.getD 0 (None [])) = some r ∧ r.matched = true) ∧
    Parse ⟨400, "application/json", strBytes "\x7b\"foo\":42\x7d"⟩ [] =
      some (some (.responseError 400 ContentTypeJSON ContentTypeJSON true
        (some (jsonNilBody ⟨400, "application/json", strBytes "\x7b\"foo\":42\x7d"⟩).body)
        (jsonNilBody ⟨400, "application/json", strBytes "\x7b\"foo\":42\x7d"⟩).err),
        [(jsonNilBody ⟨400, "application/json", strBytes "\x7b\"foo\":42\x7d"⟩).access]) ∧
    ((⟨400, "application/json", strBytes "\x7b\"foo\":42\x7d"⟩ : Response).body =
        strBytes "\x7b\"foo\":42\x7d" →
      (jsonNilBody ⟨400, "application/json", strBytes "\x7b\"foo\":42\x7d"⟩).body =
        .jsonV (.obj [(strBytes "foo", .num 42)]) ∧
      (jsonNilBody ⟨400, "application/json", strBytes "\x7b\"foo\":42\x7d"⟩).err = none) :=
  C6_fallback_json ⟨400, "application/json", strBytes "\x7b\"foo\":42\x7d"⟩
    (by norm_num) (by norm_num) rfl

end Httpsimp
